import Mathlib

/-!
# Verification of the `technical-analysis` indicator core

Shallow embedding of the repository `Ruin2121/technical-analysis`
(files `technical_analysis/baseclasses.py`,
`technical_analysis/basic_indicators/overlays/SimpleMovingAverage.py`,
`technical_analysis/composite_indicators/overlays/MovingAverageCrossover.py`,
`technical_analysis/common_indicators/SMA50CrossSMA200.py`).

Modelling conventions:
* A NumPy scalar is an `NPValue`: a finite rational, NaN, or a signed
  infinity.  Floating point is modelled by exact rationals; the claims under
  study are about element selection, window arithmetic and control flow, not
  about rounding.
* A NumPy array is an `NDArray`: a dtype tag plus the ordered list of
  elements.  The dtype tag records the two predicates the source consults,
  `np.issubdtype(dtype, np.number)` and `np.issubdtype(dtype, np.timedelta64)`.
* Python exceptions become the `Except TAError` monad; each constructor of
  `TAError` corresponds to one `raise` site of the source (plus
  `outputNotReady`, the error named by the specification, which no code path
  of the source produces).
* The mutation of the caller's keyword dictionaries performed by
  `MovingAverageCrossover.__init__` (the `pop("ma_class", None)` calls) is
  modelled by returning the updated dictionaries in a `ConstructTrace`,
  together with a flag recording whether component instantiation was reached.
-/

/-- A NumPy scalar value: a finite rational or one of the
non-finite IEEE values (`nan`, `inf`, `-inf`). -/
inductive NPValue where
  | finite (q : ℚ)
  | nan
  | posInf
  | negInf
  deriving DecidableEq, Repr

/-- `np.isnan` on one element. -/
def NPValue.isNan : NPValue → Bool
  | .nan => true
  | _ => false

/-- `np.isinf` on one element (true for both signed infinities). -/
def NPValue.isInf : NPValue → Bool
  | .posInf => true
  | .negInf => true
  | _ => false

/-- The numeric value of an element; non-finite elements are given the junk
value `0`, which is never used: every calculation in the source runs only
after validation has rejected NaN and infinite elements. -/
def NPValue.toRat : NPValue → ℚ
  | .finite q => q
  | _ => 0

/-- The two dtype predicates consulted by `_handle_common_errors`:
`np.issubdtype(dtype, np.number)` and `np.issubdtype(dtype, np.timedelta64)`.
(NumPy's `timedelta64` is numeric-like, hence the separate flag.) -/
structure NPDtype where
  isNumber : Bool
  isTimedelta : Bool
  deriving DecidableEq, Repr

/-- An ordinary floating dtype. -/
def NPDtype.float64 : NPDtype := ⟨true, false⟩

/-- The time-delta dtype: numeric-like but semantically excluded. -/
def NPDtype.timedelta64 : NPDtype := ⟨true, true⟩

/-- A non-numeric dtype (strings, objects, ...). -/
def NPDtype.object : NPDtype := ⟨false, false⟩

/-- A NumPy array: its dtype and its elements in order. -/
structure NDArray where
  dtype : NPDtype
  elems : List NPValue
  deriving DecidableEq, Repr

/-- A Python scalar passed as the `window` keyword argument
(`isinstance(window, int)` succeeds only on `int`). -/
inductive PyVal where
  | int (n : ℤ)
  | float (q : ℚ)
  | str
  | pyNone
  deriving DecidableEq, Repr

/-- Whether `isinstance(·, int)` holds. -/
def PyVal.isInt : PyVal → Bool
  | .int _ => true
  | _ => false

/-- The input shapes a caller can hand to an indicator constructor.
`pylist` carries the dtype that `np.array` infers for it; `ndarray` and
`pdSeries` carry their array of values.  `mapping` and `scalar` stand for the
unsupported shapes (dicts, plain numbers, ...). -/
inductive PyData where
  | pylist (xs : List NPValue) (inferredDtype : NPDtype)
  | ndarray (a : NDArray)
  | pdSeries (a : NDArray)
  | mapping
  | scalar (v : PyVal)
  deriving DecidableEq, Repr

/-- The Python exceptions raised by the source, one constructor per `raise`
site, plus `outputNotReady`, the typed error named by the specification
(`OutputNotReadyError`), which no `raise` site of the source produces. -/
inductive TAError where
  /-- `ValueError("Input Data contains no values.")` -/
  | emptyData
  /-- `ValueError("Input data contains NaN values.")` -/
  | nanValues
  /-- `ValueError("Input data contains infinite values.")` -/
  | infValues
  /-- `ValueError("Input data contains non-numeric values.")` -/
  | nonNumericValues
  /-- `TypeError("Window size must be an integer.")` -/
  | windowNotInt
  /-- `ValueError("Window size must be a positive integer.")` -/
  | windowNotPositive
  /-- `ValueError("Window size cannot be greater than the length of the input data.")` -/
  | windowTooLarge
  /-- `TypeError("Input data must be a list, NumPy array, or Pandas Series")` -/
  | unsupportedInputType
  /-- `TypeError("ma1 must be a subclass of BaseMovingAverageClass")` -/
  | ma1NotMASubclass
  /-- `TypeError("ma2 must be a subclass of BaseMovingAverageClass")` -/
  | ma2NotMASubclass
  /-- The `TypeError` Python itself raises when `issubclass` receives `None`
  (the popped `ma_class` key was absent). -/
  | issubclassArgNotClass
  /-- The `TypeError` Python itself raises when a component constructor is
  called without its required `window` argument. -/
  | missingWindowArgument
  /-- Calling a class that is not a modelled moving-average component;
  unreachable after `_handle_additional_errors` has passed. -/
  | nonMAComponentCall
  /-- The `AttributeError` raised by `None.tolist()` when `_output_data` was
  never set. -/
  | noneHasNoTolist
  /-- The specification's `OutputNotReadyError`. -/
  | outputNotReady
  deriving DecidableEq, Repr

/-- `BaseIndicatorClass._to_numpy` (baseclasses.py, lines 57–76): the
`isinstance` dispatch over list / `np.ndarray` / `pd.Series`, raising
`TypeError` for every other shape.  It is a `@staticmethod` reading only its
argument: no side effects. -/
def to_numpy : PyData → Except TAError NDArray
  | .pylist xs d => .ok ⟨d, xs⟩
  | .ndarray a => .ok a
  | .pdSeries a => .ok a
  | .mapping => .error .unsupportedInputType
  | .scalar _ => .error .unsupportedInputType

/-- `BaseIndicatorClass._handle_common_errors` (baseclasses.py, lines
115–158), with the source's check order: series emptiness, NaN, infinity,
dtype; then window type and positivity; then window vs. length. -/
def handle_common_errors (numpy_data : Option NDArray) (window_size : Option PyVal) :
    Except TAError Unit :=
  match
    (match numpy_data with
     | some d =>
       if d.elems.length < 1 then Except.error TAError.emptyData
       else if d.elems.any NPValue.isNan then Except.error TAError.nanValues
       else if d.elems.any NPValue.isInf then Except.error TAError.infValues
       else if !d.dtype.isNumber || d.dtype.isTimedelta then
         Except.error TAError.nonNumericValues
       else Except.ok ()
     | none => Except.ok ())
  with
  | Except.error e => Except.error e
  | Except.ok _ =>
    match
      (match window_size with
       | some (PyVal.int n) =>
         if n ≤ 0 then Except.error TAError.windowNotPositive else Except.ok ()
       | some _ => Except.error TAError.windowNotInt
       | none => Except.ok ())
    with
    | Except.error e => Except.error e
    | Except.ok _ =>
      match numpy_data, window_size with
      | some d, some (PyVal.int n) =>
        if (d.elems.length : ℤ) < n then Except.error TAError.windowTooLarge
        else Except.ok ()
      | _, _ => Except.ok ()

/-- The full convolution `np.convolve(x, w, 'full')`:
`conv[i] = Σ_{k} x[k] * w[i-k]`, of length `len(x) + len(w) - 1`. -/
def convFull (x w : List ℚ) : List ℚ :=
  (List.range (x.length + w.length - 1)).map (fun i =>
    ∑ k in Finset.range (i + 1), x.getD k 0 * w.getD (i - k) 0)

/-- `SimpleMovingAverage._calculation` (SimpleMovingAverage.py, lines 42–50):
`weights = np.repeat(1.0, w) / w`;
`sma = np.convolve(data, weights, 'full')[:len(data)]`. -/
def sma_calculation (x : List ℚ) (w : ℕ) : List ℚ :=
  (convFull x (List.replicate w (1 / (w : ℚ)))).take x.length

/-- `MovingAverageCrossover._calculation`, crossover part (lines 83–100):
`results = np.zeros_like(data)`; positions `1:` where
`ma1[:-1] < ma2[:-1] ∧ ma1[1:] > ma2[1:]` are set to `1`, positions where
`ma1[:-1] > ma2[:-1] ∧ ma1[1:] < ma2[1:]` are set to `2` (the two masks are
disjoint), then `results[: max(w1, w2)] = 0`.  Written per index: index `0`
keeps its zero, an index below `max wa wb` is zeroed last, and the two masked
assignments become the two strict-inequality tests. -/
def crossover_calculation (a b : List ℚ) (wa wb : ℕ) (n : ℕ) : List ℕ :=
  (List.range n).map (fun i =>
    if i < max wa wb then 0
    else if 1 ≤ i then
      (if a.getD (i - 1) 0 < b.getD (i - 1) 0 ∧ a.getD i 0 > b.getD i 0 then 1
       else if a.getD (i - 1) 0 > b.getD (i - 1) 0 ∧ a.getD i 0 < b.getD i 0 then 2
       else 0)
    else 0)

/-- The classes of the repository that a caller can name as an `ma_class`
component.  Only `SimpleMovingAverage` subclasses `BaseMovingAverageClass`;
`MovingAverageCrossover` and `SMA50CrossSMA200` extend `BaseIndicatorClass`
directly. -/
inductive PyClass where
  | simpleMovingAverageClass
  | movingAverageCrossoverClass
  | sma50CrossSMA200Class
  | baseIndicatorClass
  deriving DecidableEq, Repr

/-- `issubclass(c, BaseMovingAverageClass)` over the modelled classes. -/
def issubclass_BaseMovingAverageClass : PyClass → Bool
  | .simpleMovingAverageClass => true
  | _ => false

/-- A constructed moving-average component: its `_window` attribute (as read
back by `return_window`, `None` only if never set) and its `_output_data`. -/
structure MAInstance where
  window : Option ℕ
  output : List ℚ
  deriving DecidableEq, Repr

/-- `SimpleMovingAverage.__init__`: store `_window`, run `_to_numpy`, run
`_handle_common_errors(data, window)`, then `_calculation`.  On success the
window is a validated positive integer. -/
def sma_construct (data : PyData) (window : PyVal) : Except TAError MAInstance :=
  match to_numpy data with
  | .error e => .error e
  | .ok nd =>
    match handle_common_errors (some nd) (some window) with
    | .error e => .error e
    | .ok _ =>
      match window with
      | .int w => .ok ⟨some w.toNat, sma_calculation (nd.elems.map NPValue.toRat) w.toNat⟩
      | _ => .error .windowNotInt

/-- One keyword-argument dictionary of `MovingAverageCrossover` (`"ma1"` or
`"ma2"`): the optional `"ma_class"` key and the optional `"window"` key (the
parameters forwarded to the component constructor). -/
structure ComponentSpec where
  ma_class : Option PyClass
  window : Option PyVal
  deriving DecidableEq, Repr

/-- `_handle_additional_errors` (MovingAverageCrossover.py, lines 104–116):
`issubclass(ma1, BaseMovingAverageClass)` then the same for `ma2`; a `None`
argument (absent `ma_class` key) makes `issubclass` itself raise `TypeError`. -/
def handle_additional_errors (ma1 ma2 : Option PyClass) : Except TAError Unit :=
  match ma1 with
  | none => .error .issubclassArgNotClass
  | some c1 =>
    if !issubclass_BaseMovingAverageClass c1 then .error .ma1NotMASubclass
    else
      match ma2 with
      | none => .error .issubclassArgNotClass
      | some c2 =>
        if !issubclass_BaseMovingAverageClass c2 then .error .ma2NotMASubclass
        else .ok ()

/-- `cls(numpy_data, **args)`: instantiation of one component against the
shared canonical array, with the leftover keyword arguments of its spec
dictionary.  Only the moving-average class of the repository is callable this
way; a missing `window` key is Python's missing-required-argument `TypeError`. -/
def instantiate_ma (cls : PyClass) (nd : NDArray) (args : ComponentSpec) :
    Except TAError MAInstance :=
  match cls with
  | .simpleMovingAverageClass =>
    match args.window with
    | some w => sma_construct (.ndarray nd) w
    | none => .error .missingWindowArgument
  | _ => .error .nonMAComponentCall

/-- Everything observable about one `MovingAverageCrossover(data, **kwargs)`
call: the result (output array or exception), the two caller-supplied spec
dictionaries as the constructor leaves them, and whether control reached
`_calculation` (where the components are instantiated). -/
structure ConstructTrace where
  result : Except TAError (List ℕ)
  ma1_args : ComponentSpec
  ma2_args : ComponentSpec
  instantiatedComponents : Bool
  deriving Repr

/-- `MovingAverageCrossover.__init__` (lines 46–58) followed by
`_calculation` (lines 60–102), in source order: `_to_numpy(data)`, then
`pop("ma_class", None)` on both spec dictionaries (mutating them), then
`_handle_common_errors(data)` (no window), then `_handle_additional_errors`,
then instantiation of both components and the crossover computation with
`w := return_window()` (`0` substituted for `None`). -/
def macrossover_construct (data : PyData) (ma1Spec ma2Spec : ComponentSpec) :
    ConstructTrace :=
  match to_numpy data with
  | .error e => ⟨.error e, ma1Spec, ma2Spec, false⟩
  | .ok nd =>
    let ma1cls := ma1Spec.ma_class
    let ma1args : ComponentSpec := { ma1Spec with ma_class := none }
    let ma2cls := ma2Spec.ma_class
    let ma2args : ComponentSpec := { ma2Spec with ma_class := none }
    match handle_common_errors (some nd) none with
    | .error e => ⟨.error e, ma1args, ma2args, false⟩
    | .ok _ =>
      match handle_additional_errors ma1cls ma2cls with
      | .error e => ⟨.error e, ma1args, ma2args, false⟩
      | .ok _ =>
        match ma1cls, ma2cls with
        | some c1, some c2 =>
          match instantiate_ma c1 nd ma1args with
          | .error e => ⟨.error e, ma1args, ma2args, true⟩
          | .ok ma1 =>
            match instantiate_ma c2 nd ma2args with
            | .error e => ⟨.error e, ma1args, ma2args, true⟩
            | .ok ma2 =>
              ⟨.ok (crossover_calculation ma1.output ma2.output
                      (ma1.window.getD 0) (ma2.window.getD 0) nd.elems.length),
               ma1args, ma2args, true⟩
        | _, _ => ⟨.error .issubclassArgNotClass, ma1args, ma2args, false⟩

/-- `SMA50CrossSMA200._calculation` (SMA50CrossSMA200.py, lines 31–42):
build the two spec dictionaries (`SimpleMovingAverage`, windows 50 and 200),
construct a `MovingAverageCrossover` on the stored data, and copy its
`to_np_array()` output.  The wrapper's `__init__` performs no normalization
or validation of its own. -/
def sma50crosssma200_construct (data : PyData) : Except TAError (List ℕ) :=
  (macrossover_construct data
      ⟨some .simpleMovingAverageClass, some (.int 50)⟩
      ⟨some .simpleMovingAverageClass, some (.int 200)⟩).result

/-- `BaseIndicatorClass.to_list` (baseclasses.py, lines 88–95):
`self._output_data.tolist()`.  With `_output_data` still `None` this is
`None.tolist()`, an `AttributeError`. -/
def to_list {α : Type} (output_data : Option (List α)) : Except TAError (List α) :=
  match output_data with
  | none => .error .noneHasNoTolist
  | some xs => .ok xs

/-- `BaseIndicatorClass.to_np_array` (lines 97–104): returns
`self._output_data` as it is — also when it is still `None`; no exception. -/
def to_np_array {α : Type} (output_data : Option (List α)) :
    Except TAError (Option (List α)) :=
  .ok output_data

/-- `BaseIndicatorClass.to_pd_series` (lines 106–113):
`pd.Series(self._output_data)`.  `pd.Series(None)` is the empty series, so a
`None` output yields an empty labeled series, again without an exception. -/
def to_pd_series {α : Type} (output_data : Option (List α)) :
    Except TAError (List α) :=
  match output_data with
  | none => .ok []
  | some xs => .ok xs

/-- The mean of the clipped trailing window `x[max(0, i-w+1) .. i]` — the
formula the specification asserts for every output index (natural-number
subtraction performs the clipping at `0`). -/
def partialWindowMean (x : List ℚ) (w i : ℕ) : ℚ :=
  (∑ k in Finset.Icc (i + 1 - w) i, x.getD k 0) / ((Finset.Icc (i + 1 - w) i).card : ℚ)

/-- `1 ↦ 2`, `2 ↦ 1`, everything else fixed: the inversion of signal values
that swapping the two components should induce. -/
def swapSignal : ℕ → ℕ
  | 1 => 2
  | 2 => 1
  | n => n

/-! ## Shared list-indexing lemmas -/

/-- Indexing a mapped range. -/
theorem getD_map_range {α : Type} (f : ℕ → α) (n i : ℕ) (d : α) (hi : i < n) :
    ((List.range n).map f).getD i d = f i := by
  rw [List.getD_eq_getElem?_getD, List.getElem?_map, List.getElem?_range hi]
  rfl

/-- Indexing `List.replicate` inside its range. -/
theorem getD_replicate_lt {α : Type} (w j : ℕ) (c d : α) (h : j < w) :
    (List.replicate w c).getD j d = c := by
  rw [List.getD_eq_getElem?_getD, List.getElem?_replicate]
  simp [h]

/-- Indexing `List.replicate` past its range yields the default. -/
theorem getD_replicate_le {α : Type} (w j : ℕ) (c d : α) (h : w ≤ j) :
    (List.replicate w c).getD j d = d := by
  rw [List.getD_eq_getElem?_getD, List.getElem?_replicate]
  simp [Nat.not_lt.mpr h]

/-- Indexing a `take` inside the kept prefix. -/
theorem getD_take_of_lt {α : Type} (l : List α) (n i : ℕ) (d : α) (hi : i < n) :
    (l.take n).getD i d = l.getD i d := by
  rw [List.getD_eq_getElem?_getD, List.getD_eq_getElem?_getD, List.getElem?_take,
    if_pos hi]

/-! ## The closed form of the implemented moving average -/

/-- What `SimpleMovingAverage._calculation` actually computes at index `i`:
the sum of the clipped trailing window divided by the full window size `w`
(also in the warm-up region, where the window holds fewer than `w` elements). -/
theorem sma_getD (x : List ℚ) (w i : ℕ) (hw : 1 ≤ w) (hi : i < x.length) :
    (sma_calculation x w).getD i 0
      = (∑ k in Finset.Icc (i + 1 - w) i, x.getD k 0) / (w : ℚ) := by
  have hlen : i < x.length + (List.replicate w ((1 : ℚ) / (w : ℚ))).length - 1 := by
    simp only [List.length_replicate]
    omega
  unfold sma_calculation convFull
  rw [getD_take_of_lt _ _ _ _ hi, getD_map_range _ _ _ _ hlen]
  have hstep : ∀ k ∈ Finset.range (i + 1),
      x.getD k 0 * (List.replicate w ((1 : ℚ) / (w : ℚ))).getD (i - k) 0
        = if i - k < w then x.getD k 0 / (w : ℚ) else 0 := by
    intro k _
    by_cases h : i - k < w
    · rw [getD_replicate_lt _ _ _ _ h, if_pos h, mul_one_div]
    · rw [getD_replicate_le _ _ _ _ (Nat.not_lt.mp h), if_neg h, mul_zero]
  rw [Finset.sum_congr rfl hstep, ← Finset.sum_filter]
  have hset : (Finset.range (i + 1)).filter (fun k => i - k < w)
      = Finset.Icc (i + 1 - w) i := by
    ext k
    simp only [Finset.mem_filter, Finset.mem_range, Finset.mem_Icc]
    omega
  rw [hset, Finset.sum_div]

/-- Length of the moving-average output. -/
theorem sma_calculation_length (x : List ℚ) (w : ℕ) (hw : 1 ≤ w) :
    (sma_calculation x w).length = x.length := by
  unfold sma_calculation convFull
  rw [List.length_take, List.length_map, List.length_range, List.length_replicate]
  omega

/-- Length of the crossover output. -/
theorem crossover_calculation_length (a b : List ℚ) (wa wb n : ℕ) :
    (crossover_calculation a b wa wb n).length = n := by
  unfold crossover_calculation
  rw [List.length_map, List.length_range]

/-- A successful `MovingAverageCrossover` construction yields an output of
the length of the canonical input array. -/
theorem macross_result_length (data : PyData) (s1 s2 : ComponentSpec)
    (ys : List ℕ) (nd : NDArray)
    (hnd : to_numpy data = .ok nd)
    (hok : (macrossover_construct data s1 s2).result = .ok ys) :
    ys.length = nd.elems.length := by
  unfold macrossover_construct at hok
  rw [hnd] at hok
  simp only [] at hok
  repeat' split at hok
  all_goals cases hok
  all_goals exact crossover_calculation_length _ _ _ _ _

/-! ## The claims -/

/-- **C1** (amended).  For a valid series `x` and window `w` with
`1 ≤ w ≤ len x`, the implemented moving average satisfies, at every index
`i < len x`: for `i ≥ w - 1` it equals the mean of the trailing `w` input
elements ending at `i` (`partialWindowMean`, whose window
`Icc (i+1-w) i` then has exactly `w` elements); but for `i < w - 1` it
equals the sum of the first `i + 1` elements divided by the full window
size `w` — the zero-padded mean — and not the mean of the first `i + 1`
elements that the claim asserts. -/
theorem sma_output_values (x : List ℚ) (w i : ℕ)
    (hw : 1 ≤ w) (_hwn : w ≤ x.length) (hi : i < x.length) :
    (w - 1 ≤ i →
      (Finset.Icc (i + 1 - w) i).card = w
      ∧ (sma_calculation x w).getD i 0 = partialWindowMean x w i)
    ∧ (i < w - 1 →
      (sma_calculation x w).getD i 0
        = (∑ k in Finset.Icc 0 i, x.getD k 0) / (w : ℚ)) := by
  constructor
  · intro hwi
    have hcard : (Finset.Icc (i + 1 - w) i).card = w := by
      rw [Nat.card_Icc]
      omega
    refine ⟨hcard, ?_⟩
    rw [sma_getD x w i hw hi]
    unfold partialWindowMean
    rw [hcard]
  · intro hwi
    rw [sma_getD x w i hw hi]
    have h0 : i + 1 - w = 0 := by omega
    rw [h0]

/-- **C1** counterexample: on input `[1,2,3,4,5]` with window `3` (the
spec's own §8 example), the implemented output at warm-up index `0` is
`1/3`, not the mean `1` of the first input element that the claim
requires. -/
theorem sma_warmup_claim_false :
    (sma_calculation [1, 2, 3, 4, 5] 3).getD 0 0
      ≠ partialWindowMean [1, 2, 3, 4, 5] 3 0 := by
  rw [sma_getD [1, 2, 3, 4, 5] 3 0 (by decide) (by decide)]
  unfold partialWindowMean
  rw [show (0 : ℕ) + 1 - 3 = 0 from rfl, Finset.Icc_self, Finset.sum_singleton]
  norm_num [List.getD]

/-- Witness for C1's amended theorem at `x = [1,2,3,4,5]`, `w = 3`, `i = 3`. -/
theorem sma_output_values_witness :
    (1 ≤ 3 ∧ 3 ≤ ([1, 2, 3, 4, 5] : List ℚ).length ∧ 3 < ([1, 2, 3, 4, 5] : List ℚ).length)
    ∧ ((3 - 1 ≤ 3 →
          (Finset.Icc (3 + 1 - 3) 3).card = 3
          ∧ (sma_calculation [1, 2, 3, 4, 5] 3).getD 3 0
              = partialWindowMean [1, 2, 3, 4, 5] 3 3)
       ∧ (3 < 3 - 1 →
          (sma_calculation [1, 2, 3, 4, 5] 3).getD 3 0
            = (∑ k in Finset.Icc 0 3, ([1, 2, 3, 4, 5] : List ℚ).getD k 0) / (3 : ℚ))) :=
  ⟨⟨by decide, by decide, by decide⟩,
   sma_output_values [1, 2, 3, 4, 5] 3 3 (by decide) (by decide) (by decide)⟩

/-- **C2**: the crossover signal is `0` at index `0`, is forced to `0` on
the warm-up region `i < max wa wb`, equals the strict-inequality cross test
elsewhere (`1` for an upward cross, `2` for a downward cross, `0`
otherwise), and equality at either adjacent sample never yields a cross. -/
theorem crossover_pointwise (a b : List ℚ) (wa wb n i : ℕ)
    (_ha : a.length = n) (_hb : b.length = n) (hi : i < n) :
    (i = 0 → (crossover_calculation a b wa wb n).getD i 0 = 0)
    ∧ (i < max wa wb → (crossover_calculation a b wa wb n).getD i 0 = 0)
    ∧ (max wa wb ≤ i → 1 ≤ i →
        (crossover_calculation a b wa wb n).getD i 0
          = (if a.getD (i - 1) 0 < b.getD (i - 1) 0 ∧ a.getD i 0 > b.getD i 0 then 1
             else if a.getD (i - 1) 0 > b.getD (i - 1) 0 ∧ a.getD i 0 < b.getD i 0 then 2
             else 0))
    ∧ (1 ≤ i → (a.getD (i - 1) 0 = b.getD (i - 1) 0 ∨ a.getD i 0 = b.getD i 0) →
        (crossover_calculation a b wa wb n).getD i 0 = 0) := by
  unfold crossover_calculation
  rw [getD_map_range _ _ _ _ hi]
  refine ⟨?_, ?_, ?_, ?_⟩
  · intro h0
    subst h0
    split_ifs <;> omega
  · intro hmax
    rw [if_pos hmax]
  · intro hmax h1
    rw [if_neg (Nat.not_lt.mpr hmax), if_pos h1]
  · intro h1 heq
    by_cases hmax : i < max wa wb
    · rw [if_pos hmax]
    · rw [if_neg hmax, if_pos h1]
      split_ifs with c1 c2
      · rcases heq with h | h
        · exact absurd c1.1 (by rw [h]; exact lt_irrefl _)
        · exact absurd c1.2 (by rw [h]; exact lt_irrefl _)
      · rcases heq with h | h
        · exact absurd c2.1 (by rw [h]; exact lt_irrefl _)
        · exact absurd c2.2 (by rw [h]; exact lt_irrefl _)
      · rfl

/-- Witness for C2 at `a = [1,3]`, `b = [2,2]`, `wa = wb = 1`, `n = 2`,
`i = 1`: an upward cross at the first post-warm-up index. -/
theorem crossover_pointwise_witness :
    (([1, 3] : List ℚ).length = 2 ∧ ([2, 2] : List ℚ).length = 2 ∧ 1 < 2)
    ∧ ((1 = 0 → (crossover_calculation [1, 3] [2, 2] 1 1 2).getD 1 0 = 0)
       ∧ (1 < max 1 1 → (crossover_calculation [1, 3] [2, 2] 1 1 2).getD 1 0 = 0)
       ∧ (max 1 1 ≤ 1 → 1 ≤ 1 →
            (crossover_calculation [1, 3] [2, 2] 1 1 2).getD 1 0
              = (if ([1, 3] : List ℚ).getD 0 0 < ([2, 2] : List ℚ).getD 0 0
                    ∧ ([1, 3] : List ℚ).getD 1 0 > ([2, 2] : List ℚ).getD 1 0 then 1
                 else if ([1, 3] : List ℚ).getD 0 0 > ([2, 2] : List ℚ).getD 0 0
                    ∧ ([1, 3] : List ℚ).getD 1 0 < ([2, 2] : List ℚ).getD 1 0 then 2
                 else 0))
       ∧ (1 ≤ 1 →
            (([1, 3] : List ℚ).getD 0 0 = ([2, 2] : List ℚ).getD 0 0
             ∨ ([1, 3] : List ℚ).getD 1 0 = ([2, 2] : List ℚ).getD 1 0) →
            (crossover_calculation [1, 3] [2, 2] 1 1 2).getD 1 0 = 0)) :=
  ⟨⟨by decide, by decide, by decide⟩,
   crossover_pointwise [1, 3] [2, 2] 1 1 2 1 (by decide) (by decide) (by decide)⟩

/-- **C3**: length preservation.  The moving-average output has the length
of its input for every valid window; the crossover computation has the
length of the canonical input; and a successful `MovingAverageCrossover`
construction returns an output of the length of its canonical input array. -/
theorem output_length_preservation (x a b : List ℚ) (w wa wb n : ℕ)
    (data : PyData) (s1 s2 : ComponentSpec) (ys : List ℕ) (nd : NDArray)
    (hw : 1 ≤ w) (_hwn : w ≤ x.length)
    (hnd : to_numpy data = .ok nd)
    (hok : (macrossover_construct data s1 s2).result = .ok ys) :
    (sma_calculation x w).length = x.length
    ∧ (crossover_calculation a b wa wb n).length = n
    ∧ ys.length = nd.elems.length :=
  ⟨sma_calculation_length x w hw,
   crossover_calculation_length a b wa wb n,
   macross_result_length data s1 s2 ys nd hnd hok⟩

/-- Witness for C3: windows 3 and 3 on a three-element series; the
construction succeeds with the all-zero signal of length 3. -/
theorem output_length_preservation_witness :
    (1 ≤ 2 ∧ 2 ≤ ([1, 2] : List ℚ).length
     ∧ to_numpy (.ndarray ⟨.float64, [.finite 1, .finite 2, .finite 3]⟩)
         = .ok ⟨.float64, [.finite 1, .finite 2, .finite 3]⟩
     ∧ (macrossover_construct (.ndarray ⟨.float64, [.finite 1, .finite 2, .finite 3]⟩)
          ⟨some .simpleMovingAverageClass, some (.int 3)⟩
          ⟨some .simpleMovingAverageClass, some (.int 3)⟩).result = .ok [0, 0, 0])
    ∧ ((sma_calculation [1, 2] 2).length = ([1, 2] : List ℚ).length
       ∧ (crossover_calculation [1] [1] 0 0 1).length = 1
       ∧ ([0, 0, 0] : List ℕ).length
           = (⟨.float64, [.finite 1, .finite 2, .finite 3]⟩ : NDArray).elems.length) :=
  ⟨⟨by decide, by decide, rfl, rfl⟩,
   output_length_preservation [1, 2] [1] [1] 2 0 0 1
     (.ndarray ⟨.float64, [.finite 1, .finite 2, .finite 3]⟩)
     ⟨some .simpleMovingAverageClass, some (.int 3)⟩
     ⟨some .simpleMovingAverageClass, some (.int 3)⟩
     [0, 0, 0] ⟨.float64, [.finite 1, .finite 2, .finite 3]⟩
     (by decide) (by decide) rfl rfl⟩

/-- **C5** counterexample.  On an instance whose `_output_data` was never
set (`none`), the three output views do **not** all fail with the
specification's `OutputNotReadyError`: `to_list` fails, but with the
untyped `AttributeError` of `None.tolist()`; `to_np_array` succeeds and
returns `None`; `to_pd_series` succeeds and returns an empty series. -/
theorem output_views_claim_false :
    to_list (none : Option (List ℚ)) ≠ .error TAError.outputNotReady
    ∧ to_np_array (none : Option (List ℚ)) = .ok none
    ∧ to_pd_series (none : Option (List ℚ)) = .ok [] := by
  refine ⟨?_, rfl, rfl⟩
  intro h
  simp only [to_list, Except.error.injEq] at h
  cases h

/-- **C5** (amended): before a successful calculation (`_output_data`
still `none`), `to_list` raises the `AttributeError` of `None.tolist()`,
while `to_np_array` returns `None` and `to_pd_series` returns an empty
series, both without raising. -/
theorem output_views_none_behavior {α : Type} (st : Option (List α)) (h : st = none) :
    to_list st = .error TAError.noneHasNoTolist
    ∧ to_np_array st = .ok none
    ∧ to_pd_series st = .ok [] := by
  subst h
  exact ⟨rfl, rfl, rfl⟩

/-- Witness for C5's amended theorem at the unset state. -/
theorem output_views_none_behavior_witness :
    (none : Option (List ℚ)) = none
    ∧ (to_list (none : Option (List ℚ)) = .error TAError.noneHasNoTolist
       ∧ to_np_array (none : Option (List ℚ)) = .ok none
       ∧ to_pd_series (none : Option (List ℚ)) = .ok []) :=
  ⟨rfl, output_views_none_behavior (none : Option (List ℚ)) rfl⟩

/-- **C6**: swapping the two moving-average components turns the signal
series into its image under `1 ↔ 2` (zeros unchanged): the upward-cross
test of the swapped composer is exactly the downward-cross test of the
original, the warm-up bound `max` is symmetric, and strictness makes the
two tests mutually exclusive. -/
theorem crossover_swap_symmetry (a b : List ℚ) (wa wb n : ℕ) :
    crossover_calculation b a wb wa n
      = (crossover_calculation a b wa wb n).map swapSignal := by
  unfold crossover_calculation
  rw [List.map_map]
  apply List.map_congr_left
  intro i _
  simp only [Function.comp_apply]
  rw [Nat.max_comm wb wa]
  by_cases hmax : i < max wa wb
  · rw [if_pos hmax, if_pos hmax]
    rfl
  · rw [if_neg hmax, if_neg hmax]
    by_cases h1 : 1 ≤ i
    · rw [if_pos h1, if_pos h1]
      split_ifs with c1 c2 c3
      all_goals simp_all [swapSignal]
      all_goals linarith
    · rw [if_neg h1, if_neg h1]
      rfl

/-- **C7**: `_to_numpy` maps each of the three accepted shapes to the
array holding exactly the same elements in the same order (for a plain
list, the array `np.array` builds from it; for an array, the object
itself; for a labeled series, its values), and rejects every other shape
with the unsupported-input `TypeError`.  The function is a static method
that only reads its argument: the model is a pure function. -/
theorem to_numpy_dispatch (xs : List NPValue) (dt : NPDtype) (arr : NDArray) (v : PyVal) :
    to_numpy (.pylist xs dt) = .ok ⟨dt, xs⟩
    ∧ (to_numpy (.ndarray arr) = .ok arr ∧ arr.elems = arr.elems)
    ∧ to_numpy (.pdSeries arr) = .ok arr
    ∧ to_numpy .mapping = .error .unsupportedInputType
    ∧ to_numpy (.scalar v) = .error .unsupportedInputType :=
  ⟨rfl, ⟨rfl, rfl⟩, rfl, rfl, rfl⟩

/-- **C9**: the `SMA50CrossSMA200` preset is definitionally the
`MovingAverageCrossover` constructed on the same data with two
`SimpleMovingAverage` components of windows 50 and 200 — same output
series element for element (and the same exception on invalid data);
the wrapper adds no further logic. -/
theorem sma50cross_delegates (data : PyData) :
    sma50crosssma200_construct data
      = (macrossover_construct data
          ⟨some .simpleMovingAverageClass, some (.int 50)⟩
          ⟨some .simpleMovingAverageClass, some (.int 200)⟩).result :=
  rfl

/-- All series-side preconditions of `_handle_common_errors` hold. -/
def validSeries (d : NDArray) : Bool :=
  decide (1 ≤ d.elems.length) && !(d.elems.any NPValue.isNan)
    && !(d.elems.any NPValue.isInf) && d.dtype.isNumber && !d.dtype.isTimedelta

/-- The two raise sites the specification groups as `NonFiniteValueError`. -/
def TAError.isNonFinite : TAError → Bool
  | .nanValues => true
  | .infValues => true
  | _ => false

/-- Unpacking `validSeries`. -/
theorem validSeries_spec (d : NDArray) (h : validSeries d = true) :
    1 ≤ d.elems.length ∧ d.elems.any NPValue.isNan = false
    ∧ d.elems.any NPValue.isInf = false ∧ d.dtype.isNumber = true
    ∧ d.dtype.isTimedelta = false := by
  unfold validSeries at h
  simp only [Bool.and_eq_true, decide_eq_true_eq, Bool.not_eq_true'] at h
  tauto

/-- **C4**: each violated precondition of `_handle_common_errors` raises
exactly its own typed failure — the empty-series error; the non-finite
error (the NaN or the infinity raise site) for any NaN or infinite element;
the non-numeric error for a dtype that is not numeric or is a time-delta;
the window-type error for a non-integer window; the non-positive-window
error for an integer window `≤ 0`; the window-too-large error for an
integer window exceeding the series length — and validation succeeds when
no precondition is violated. -/
theorem validation_error_mapping (d : NDArray) (w : PyVal) :
    (d.elems.length < 1 →
      handle_common_errors (some d) (some w) = .error .emptyData)
    ∧ (1 ≤ d.elems.length →
       d.elems.any (fun v => v.isNan || v.isInf) = true →
       ∃ e, handle_common_errors (some d) (some w) = .error e ∧ e.isNonFinite = true)
    ∧ (1 ≤ d.elems.length →
       d.elems.any NPValue.isNan = false →
       d.elems.any NPValue.isInf = false →
       (!d.dtype.isNumber || d.dtype.isTimedelta) = true →
       handle_common_errors (some d) (some w) = .error .nonNumericValues)
    ∧ (validSeries d = true → w.isInt = false →
       handle_common_errors (some d) (some w) = .error .windowNotInt)
    ∧ (∀ z : ℤ, validSeries d = true → w = .int z → z ≤ 0 →
       handle_common_errors (some d) (some w) = .error .windowNotPositive)
    ∧ (∀ z : ℤ, validSeries d = true → w = .int z → 0 < z → (d.elems.length : ℤ) < z →
       handle_common_errors (some d) (some w) = .error .windowTooLarge)
    ∧ (∀ z : ℤ, validSeries d = true → w = .int z → 0 < z → z ≤ (d.elems.length : ℤ) →
       handle_common_errors (some d) (some w) = .ok ()) := by
  refine ⟨?_, ?_, ?_, ?_, ?_, ?_, ?_⟩
  · intro hlen
    simp [handle_common_errors, hlen]
  · intro hlen hnf
    by_cases hnan : d.elems.any NPValue.isNan = true
    · exact ⟨.nanValues, by simp [handle_common_errors, Nat.not_lt.mpr hlen, hnan], rfl⟩
    · have hinf : d.elems.any NPValue.isInf = true := by
        rcases List.any_eq_true.mp hnf with ⟨v, hv, hvi⟩
        rcases Bool.or_eq_true_iff.mp hvi with h | h
        · exact absurd (List.any_eq_true.mpr ⟨v, hv, h⟩) hnan
        · exact List.any_eq_true.mpr ⟨v, hv, h⟩
      exact ⟨.infValues,
        by simp [handle_common_errors, Nat.not_lt.mpr hlen, hnan, hinf], rfl⟩
  · intro hlen hnan hinf hdt
    simp [handle_common_errors, Nat.not_lt.mpr hlen, hnan, hinf, hdt]
  · intro hv hw
    have hs := validSeries_spec d hv
    match w, hw with
    | .float q, _ =>
      simp [handle_common_errors, Nat.not_lt.mpr hs.1, hs.2.1, hs.2.2.1,
        hs.2.2.2.1, hs.2.2.2.2]
    | .str, _ =>
      simp [handle_common_errors, Nat.not_lt.mpr hs.1, hs.2.1, hs.2.2.1,
        hs.2.2.2.1, hs.2.2.2.2]
    | .pyNone, _ =>
      simp [handle_common_errors, Nat.not_lt.mpr hs.1, hs.2.1, hs.2.2.1,
        hs.2.2.2.1, hs.2.2.2.2]
  · intro z hv hz hneg
    have hs := validSeries_spec d hv
    subst hz
    simp [handle_common_errors, Nat.not_lt.mpr hs.1, hs.2.1, hs.2.2.1,
      hs.2.2.2.1, hs.2.2.2.2, hneg]
  · intro z hv hz hpos hbig
    have hs := validSeries_spec d hv
    subst hz
    simp [handle_common_errors, Nat.not_lt.mpr hs.1, hs.2.1, hs.2.2.1,
      hs.2.2.2.1, hs.2.2.2.2, not_le.mpr hpos, hbig]
  · intro z hv hz hpos hsmall
    have hs := validSeries_spec d hv
    subst hz
    simp [handle_common_errors, Nat.not_lt.mpr hs.1, hs.2.1, hs.2.2.1,
      hs.2.2.2.1, hs.2.2.2.2, not_le.mpr hpos, not_lt.mpr hsmall]

/-- Witness for C4: a finite two-element float series with window 2
validates successfully. -/
theorem validation_error_mapping_witness :
    validSeries ⟨.float64, [.finite 1, .finite 2]⟩ = true
    ∧ handle_common_errors (some ⟨.float64, [.finite 1, .finite 2]⟩) (some (.int 2))
        = .ok () :=
  ⟨by decide,
   (validation_error_mapping ⟨.float64, [.finite 1, .finite 2]⟩ (.int 2)).2.2.2.2.2.2
     2 (by decide) rfl (by decide) (by decide)⟩

/-- **C8**: with valid data, a component whose named class is not a
subclass of `BaseMovingAverageClass` makes construction fail in
`_handle_additional_errors` with the corresponding `TypeError`, and
control never reaches `_calculation` (no component is instantiated);
when both named classes are moving-average subclasses the check passes. -/
theorem macross_component_type_check (data : PyData) (s1 s2 : ComponentSpec)
    (nd : NDArray) (c1 c2 : PyClass)
    (h1 : s1.ma_class = some c1) (h2 : s2.ma_class = some c2)
    (hnd : to_numpy data = .ok nd)
    (hvalid : handle_common_errors (some nd) none = .ok ()) :
    (issubclass_BaseMovingAverageClass c1 = false →
       (macrossover_construct data s1 s2).result = .error .ma1NotMASubclass
       ∧ (macrossover_construct data s1 s2).instantiatedComponents = false)
    ∧ (issubclass_BaseMovingAverageClass c1 = true →
       issubclass_BaseMovingAverageClass c2 = false →
       (macrossover_construct data s1 s2).result = .error .ma2NotMASubclass
       ∧ (macrossover_construct data s1 s2).instantiatedComponents = false)
    ∧ (issubclass_BaseMovingAverageClass c1 = true →
       issubclass_BaseMovingAverageClass c2 = true →
       handle_additional_errors s1.ma_class s2.ma_class = .ok ()) := by
  refine ⟨?_, ?_, ?_⟩
  · intro hc1
    have hadd : handle_additional_errors s1.ma_class s2.ma_class
        = .error .ma1NotMASubclass := by
      rw [h1]
      simp [handle_additional_errors, hc1]
    constructor <;> simp [macrossover_construct, hnd, hvalid, hadd]
  · intro hc1 hc2
    have hadd : handle_additional_errors s1.ma_class s2.ma_class
        = .error .ma2NotMASubclass := by
      rw [h1, h2]
      simp [handle_additional_errors, hc1, hc2]
    constructor <;> simp [macrossover_construct, hnd, hvalid, hadd]
  · intro hc1 hc2
    rw [h1, h2]
    simp [handle_additional_errors, hc1, hc2]

/-- Witness for C8: valid data, first component class
`MovingAverageCrossover` (not a moving-average subclass), second
`SimpleMovingAverage`. -/
theorem macross_component_type_check_witness :
    ((⟨some .movingAverageCrossoverClass, some (.int 1)⟩ : ComponentSpec).ma_class
        = some .movingAverageCrossoverClass
     ∧ (⟨some .simpleMovingAverageClass, some (.int 1)⟩ : ComponentSpec).ma_class
        = some .simpleMovingAverageClass
     ∧ to_numpy (.ndarray ⟨.float64, [.finite 1, .finite 2]⟩)
        = .ok ⟨.float64, [.finite 1, .finite 2]⟩
     ∧ handle_common_errors (some ⟨.float64, [.finite 1, .finite 2]⟩) none = .ok ()
     ∧ issubclass_BaseMovingAverageClass .movingAverageCrossoverClass = false)
    ∧ ((macrossover_construct (.ndarray ⟨.float64, [.finite 1, .finite 2]⟩)
          ⟨some .movingAverageCrossoverClass, some (.int 1)⟩
          ⟨some .simpleMovingAverageClass, some (.int 1)⟩).result
        = .error .ma1NotMASubclass
       ∧ (macrossover_construct (.ndarray ⟨.float64, [.finite 1, .finite 2]⟩)
          ⟨some .movingAverageCrossoverClass, some (.int 1)⟩
          ⟨some .simpleMovingAverageClass, some (.int 1)⟩).instantiatedComponents
        = false) :=
  ⟨⟨rfl, rfl, rfl, rfl, rfl⟩,
   (macross_component_type_check (.ndarray ⟨.float64, [.finite 1, .finite 2]⟩)
      ⟨some .movingAverageCrossoverClass, some (.int 1)⟩
      ⟨some .simpleMovingAverageClass, some (.int 1)⟩
      ⟨.float64, [.finite 1, .finite 2]⟩
      .movingAverageCrossoverClass .simpleMovingAverageClass
      rfl rfl rfl rfl).1 rfl⟩

/-- **C10**: once `_to_numpy` has succeeded, `MovingAverageCrossover`
construction pops `"ma_class"` out of both caller-supplied spec
dictionaries — they end without the key, so a spec that carried a
component class is genuinely mutated — and a second construction reusing
the popped dictionaries cannot find a component class: on valid data it
fails with the `TypeError` that `issubclass(None, ...)` raises. -/
theorem macross_spec_mutation (data : PyData) (s1 s2 : ComponentSpec) (nd : NDArray)
    (hnd : to_numpy data = .ok nd) :
    (macrossover_construct data s1 s2).ma1_args.ma_class = none
    ∧ (macrossover_construct data s1 s2).ma2_args.ma_class = none
    ∧ (∀ c, s1.ma_class = some c → (macrossover_construct data s1 s2).ma1_args ≠ s1)
    ∧ (handle_common_errors (some nd) none = .ok () →
       (macrossover_construct data
          (macrossover_construct data s1 s2).ma1_args
          (macrossover_construct data s1 s2).ma2_args).result
         = .error .issubclassArgNotClass) := by
  have hm1 : (macrossover_construct data s1 s2).ma1_args
      = { s1 with ma_class := none } := by
    unfold macrossover_construct
    rw [hnd]
    simp only []
    repeat' split
    all_goals rfl
  have hm2 : (macrossover_construct data s1 s2).ma2_args
      = { s2 with ma_class := none } := by
    unfold macrossover_construct
    rw [hnd]
    simp only []
    repeat' split
    all_goals rfl
  refine ⟨by rw [hm1], by rw [hm2], ?_, ?_⟩
  · intro c hc heq
    rw [hm1] at heq
    have := congrArg ComponentSpec.ma_class heq
    rw [hc] at this
    simp at this
  · intro hvalid
    rw [hm1, hm2]
    have hadd : handle_additional_errors
        ({ s1 with ma_class := none } : ComponentSpec).ma_class
        ({ s2 with ma_class := none } : ComponentSpec).ma_class
        = .error .issubclassArgNotClass := rfl
    simp [macrossover_construct, hnd, hvalid, hadd]

/-- Witness for C10: specs naming `SimpleMovingAverage` with windows 2
and 2 on a valid two-element series. -/
theorem macross_spec_mutation_witness :
    (to_numpy (.ndarray ⟨.float64, [.finite 1, .finite 2]⟩)
        = .ok ⟨.float64, [.finite 1, .finite 2]⟩
     ∧ (⟨some .simpleMovingAverageClass, some (.int 2)⟩ : ComponentSpec).ma_class
        = some .simpleMovingAverageClass)
    ∧ ((macrossover_construct (.ndarray ⟨.float64, [.finite 1, .finite 2]⟩)
          ⟨some .simpleMovingAverageClass, some (.int 2)⟩
          ⟨some .simpleMovingAverageClass, some (.int 2)⟩).ma1_args.ma_class = none
       ∧ (macrossover_construct (.ndarray ⟨.float64, [.finite 1, .finite 2]⟩)
          ⟨some .simpleMovingAverageClass, some (.int 2)⟩
          ⟨some .simpleMovingAverageClass, some (.int 2)⟩).ma2_args.ma_class = none
       ∧ (∀ c, (⟨some .simpleMovingAverageClass, some (.int 2)⟩ : ComponentSpec).ma_class
            = some c →
          (macrossover_construct (.ndarray ⟨.float64, [.finite 1, .finite 2]⟩)
            ⟨some .simpleMovingAverageClass, some (.int 2)⟩
            ⟨some .simpleMovingAverageClass, some (.int 2)⟩).ma1_args
           ≠ ⟨some .simpleMovingAverageClass, some (.int 2)⟩)
       ∧ (handle_common_errors (some ⟨.float64, [.finite 1, .finite 2]⟩) none = .ok () →
          (macrossover_construct (.ndarray ⟨.float64, [.finite 1, .finite 2]⟩)
            (macrossover_construct (.ndarray ⟨.float64, [.finite 1, .finite 2]⟩)
              ⟨some .simpleMovingAverageClass, some (.int 2)⟩
              ⟨some .simpleMovingAverageClass, some (.int 2)⟩).ma1_args
            (macrossover_construct (.ndarray ⟨.float64, [.finite 1, .finite 2]⟩)
              ⟨some .simpleMovingAverageClass, some (.int 2)⟩
              ⟨some .simpleMovingAverageClass, some (.int 2)⟩).ma2_args).result
           = .error .issubclassArgNotClass)) :=
  ⟨⟨rfl, rfl⟩,
   macross_spec_mutation (.ndarray ⟨.float64, [.finite 1, .finite 2]⟩)
     ⟨some .simpleMovingAverageClass, some (.int 2)⟩
     ⟨some .simpleMovingAverageClass, some (.int 2)⟩
     ⟨.float64, [.finite 1, .finite 2]⟩ rfl⟩
